import Mathlib

/-!
Verification of the client-side behavioral tracking system of the
oslo-framehaus-template repository, as a shallow embedding in Lean 4.

The embedding mirrors the TypeScript sources:
- the consent store (tracking/core/consent, src/unnamed/part_002 lines 25-75),
- the identity and session manager (src/lib/tracking/session/index.ts),
- the blog scroll-depth tracker and the search store-and-forward module
  (src/lib/tracking/modules/blog.ts),
- the property duration tracker (src/lib/tracking/modules/property.ts),
- the favourites module (src/lib/tracking/modules/favourites.ts),
- the StratosTracker facade guards (src/unnamed/part_002).

Browser state (localStorage, sessionStorage, the in-module mutable
variables, Date.now) is passed explicitly; timestamps are epoch
milliseconds as Nat; UUID generation is an explicit argument standing
for the value crypto.randomUUID would return at that point.
-/

namespace Stratos

/-! ## Consent store (tracking/core/consent)

The stored consent value is modelled by the outcome of reading and
parsing it: the localStorage read can throw (storage disabled), return
null/empty (absent), or return a string that JSON.parse either rejects
(corrupt) or turns into an object whose analytics/marketing fields are
literally true, literally false, or absent/non-boolean (the code tests
with strict equality to true). -/

structure ConsentJson where
  analytics : Option Bool
  marketing : Option Bool
deriving DecidableEq

inductive ConsentRead where
  | throws
  | absent
  | corrupt
  | parsed (c : ConsentJson)
deriving DecidableEq

/-- hasAnalyticsConsent: try-read, false when absent, parse, strict
comparison of the analytics field with true; false on any throw. -/
def hasAnalyticsConsent : ConsentRead → Bool
  | .throws => false
  | .absent => false
  | .corrupt => false
  | .parsed c => c.analytics == some true

/-- hasMarketingConsent: same shape over the marketing field. -/
def hasMarketingConsent : ConsentRead → Bool
  | .throws => false
  | .absent => false
  | .corrupt => false
  | .parsed c => c.marketing == some true

/-- getConsentStatus: returns the parsed record, null when absent and on
any read or parse failure. -/
def getConsentStatus : ConsentRead → Option ConsentJson
  | .throws => none
  | .absent => none
  | .corrupt => none
  | .parsed c => some c

/-! ## Identity and session manager (tracking/session/index.ts) -/

def SESSION_TIMEOUT_MS : Nat := 30 * 60 * 1000

structure SessionData where
  session_id : String
  visitor_id : String
  created_at : Nat
  last_activity_at : Nat
  page_views : Nat
deriving DecidableEq

/-- The mutable state the session module touches: the consent flag as
reported by hasAnalyticsConsent at the time of the call, the persisted
localStorage entries (sr_session, sr_visitor) and the two in-memory
fallbacks (tempSession, tempVisitorId). -/
structure SessionState where
  consent : Bool
  storedSession : Option SessionData
  tempSession : Option SessionData
  storedVisitor : Option String
  tempVisitorId : Option String
deriving DecidableEq

/-- getVisitorId. gen is the UUID crypto.randomUUID would produce if the
code reached a generateUUID call. Without consent the temporary
in-memory id is returned (created on demand); with consent the
persisted id is returned, and when none is persisted the temporary id
is promoted (tempVisitorId or a fresh UUID) and persisted. -/
def getVisitorId (gen : String) (s : SessionState) : String × SessionState :=
  if !s.consent then
    match s.tempVisitorId with
    | some t => (t, s)
    | none => (gen, { s with tempVisitorId := some gen })
  else
    match s.storedVisitor with
    | some v => (v, s)
    | none =>
      let v := s.tempVisitorId.getD gen
      (v, { s with storedVisitor := some v })

/-- getStoredSession: in-memory session without consent, the persisted
one with consent. -/
def getStoredSession (s : SessionState) : Option SessionData :=
  if !s.consent then s.tempSession else s.storedSession

/-- saveSession: in-memory only without consent; with consent persisted
and also kept in memory. -/
def saveSession (sess : SessionData) (s : SessionState) : SessionState :=
  if !s.consent then { s with tempSession := some sess }
  else { s with storedSession := some sess, tempSession := some sess }

/-- isSessionExpired: strictly more than 30 minutes since last activity.
Nat subtraction truncates at zero exactly as the JS comparison treats a
negative difference (both are not greater than the timeout). -/
def isSessionExpired (now : Nat) (sess : SessionData) : Bool :=
  now - sess.last_activity_at > SESSION_TIMEOUT_MS

/-- createNewSession: fresh session id, visitor id via getVisitorId,
page_views starts at 0, both timestamps now; saved immediately. -/
def createNewSession (now : Nat) (sidGen vidGen : String) (s : SessionState) :
    SessionData × SessionState :=
  let r := getVisitorId vidGen s
  let sess : SessionData :=
    { session_id := sidGen
      , visitor_id := r.1
      , created_at := now
      , last_activity_at := now
      , page_views := 0 }
  (sess, saveSession sess r.2)

/-- updateSessionActivity: bump last_activity_at, increment page_views,
save. -/
def updateSessionActivity (now : Nat) (sess : SessionData) (s : SessionState) :
    SessionData × SessionState :=
  let sess2 := { sess with last_activity_at := now, page_views := sess.page_views + 1 }
  (sess2, saveSession sess2 s)

/-- getSessionId: create when absent, create when expired, otherwise
update activity and return the existing id. -/
def getSessionId (now : Nat) (sidGen vidGen : String) (s : SessionState) :
    String × SessionState :=
  match getStoredSession s with
  | none =>
    let r := createNewSession now sidGen vidGen s
    (r.1.session_id, r.2)
  | some sess =>
    if isSessionExpired now sess then
      let r := createNewSession now sidGen vidGen s
      (r.1.session_id, r.2)
    else
      let r := updateSessionActivity now sess s
      (r.1.session_id, r.2)

/-- The no-valid-session guard condition of getSessionId: no stored
session, or the stored one is expired at the given time. -/
def noValidSession (now : Nat) (s : SessionState) : Bool :=
  match getStoredSession s with
  | none => true
  | some sess => isSessionExpired now sess

/-- A sequence of getSessionId calls: each list entry is the call time
and the two UUIDs generateUUID would yield in that call; returns the
list of returned session ids and the final state. -/
def getSessionIdN (calls : List (Nat × String × String)) (s : SessionState) :
    List String × SessionState :=
  match calls with
  | [] => ([], s)
  | c :: rest =>
    let r := getSessionId c.1 c.2.1 c.2.2 s
    let rr := getSessionIdN rest r.2
    (r.1 :: rr.1, rr.2)

/-- All call times stay within the idle window of the previous activity:
the first call at most SESSION_TIMEOUT_MS after the given last-activity
time, each later call at most SESSION_TIMEOUT_MS after the previous
call. -/
def withinWindow (last : Nat) : List Nat → Bool
  | [] => true
  | t :: rest => decide (t - last ≤ SESSION_TIMEOUT_MS) && withinWindow t rest

/-! ## Blog scroll-depth tracking (tracking/modules/blog.ts) -/

def milestones : List Nat := [25, 50, 75, 100]

/-- One scroll handler invocation at scroll percentage p with current
maxScrollDepth maxd: the fired milestone (if any) and the new
maxScrollDepth. Array.prototype.find returns the first milestone m with
p at least m and maxd strictly below m. -/
def scrollStep (maxd p : Nat) : Option Nat × Nat :=
  match milestones.find? (fun m => decide (p ≥ m) && decide (maxd < m)) with
  | some m => if p > maxd then (some m, p) else (none, maxd)
  | none => if p > maxd then (none, p) else (none, maxd)

/-- The milestone values of the blog_scroll_depth events fired over a
sequence of scroll percentages, threading maxScrollDepth. -/
def scrollRun (maxd : Nat) : List Nat → List Nat
  | [] => []
  | p :: rest =>
    match scrollStep maxd p with
    | (some m, maxd2) => m :: scrollRun maxd2 rest
    | (none, maxd2) => scrollRun maxd2 rest

/-! ## Property duration tracking (tracking/modules/property.ts) -/

/-- The event_data object handed to sendBeacon by trackPropertyDuration. -/
structure PropertyDurationEvent where
  event_type : String
  property_id : String
  view_duration_seconds : Nat
  page_url : String
deriving DecidableEq

/-- trackPropertyDuration (module function): no event when startTime is
0 (JS falsy) or the elapsed whole seconds are below 3; otherwise one
property_view beacon carrying the duration. Nat division matches
Math.floor on the non-negative difference, and a negative JS difference
floors below 3 exactly as the truncated Nat difference does. -/
def trackPropertyDuration (pageUrl pid : String) (startTime now : Nat) :
    List PropertyDurationEvent :=
  if startTime = 0 then []
  else
    let duration := (now - startTime) / 1000
    if duration < 3 then []
    else [⟨"property_view", pid, duration, pageUrl⟩]

/-- StratosTracker.trackPropertyDuration: the facade guard checks only
config.trackingEnabled and a non-zero start time; the consentGiven flag
is NOT consulted on this path (it is a parameter here to make the guard
explicit). -/
def facadeTrackPropertyDuration (trackingEnabled _consentGiven : Bool)
    (propertyViewStartTime : Nat) (pageUrl pid : String) (now : Nat) :
    List PropertyDurationEvent :=
  if !trackingEnabled || propertyViewStartTime = 0 then []
  else trackPropertyDuration pageUrl pid propertyViewStartTime now

/-! ## Search store-and-forward (tracking/modules/blog.ts, search part) -/

/-- JS logical-or on strings: the empty string is falsy. -/
def jsOrStr (a b : String) : String :=
  if a = "" then b else a

/-- JS logical-or on an optional string with a default. -/
def jsOrOptStr (a : Option String) (b : String) : String :=
  match a with
  | some s => jsOrStr s b
  | none => b

/-- JS x or-else null on an optional number: 0 is falsy and becomes null. -/
def jsOrNullNat (a : Option Nat) : Option Nat :=
  match a with
  | some 0 => none
  | x => x

/-- JS x or-else null on an optional string: the empty string becomes null. -/
def jsOrNullStr (a : Option String) : Option String :=
  match a with
  | some s => if s = "" then none else some s
  | none => none

/-- The SearchTrackingData record persisted under
stratos_pending_search. Filters are an association list standing for the
free-form filters object. -/
structure SearchTrackingData where
  listing_type : String
  timestamp : Nat
  location : String
  postcode : String
  min_price : Option Nat
  max_price : Option Nat
  bedrooms : Option String
  bathrooms : Option String
  property_type : Option String
  filters : List (String × String)
  filters_count : Nat
  source_page : String
  source_component : String
deriving DecidableEq

/-- The caller-supplied partial search data. -/
structure SearchTrackingInput where
  listing_type : Option String
  location : Option String
  postcode : Option String
  min_price : Option Nat
  max_price : Option Nat
  bedrooms : Option String
  bathrooms : Option String
  property_type : Option String
  filters : Option (List (String × String))
  filters_count : Option Nat
  source_page : Option String
  source_component : Option String
deriving DecidableEq

/-- The record storeSearchForTracking builds: defaults applied with JS
or-semantics, timestamp set to the current client clock, source_page
falling back to window.location.pathname. -/
def mkSearchRecord (now : Nat) (pagePath : String) (d : SearchTrackingInput) :
    SearchTrackingData :=
  { listing_type := jsOrOptStr d.listing_type "sale"
    , timestamp := now
    , location := jsOrOptStr d.location (jsOrOptStr d.postcode "")
    , postcode := jsOrOptStr d.postcode ""
    , min_price := d.min_price
    , max_price := d.max_price
    , bedrooms := d.bedrooms
    , bathrooms := d.bathrooms
    , property_type := d.property_type
    , filters := d.filters.getD []
    , filters_count := d.filters_count.getD 0
    , source_page := jsOrOptStr d.source_page pagePath
    , source_component := jsOrOptStr d.source_component "unknown" }

/-- storeSearchForTracking: overwrites the single pending slot with the
freshly built record. -/
def storeSearchForTracking (now : Nat) (pagePath : String)
    (d : SearchTrackingInput) (_pending : Option SearchTrackingData) :
    Option SearchTrackingData :=
  some (mkSearchRecord now pagePath d)

/-- formatPrice: values of a million and above in M (one decimal when
not a whole number of millions, rounding half up as Number.toFixed
does on these magnitudes), thousands rounded to k, small values
verbatim. -/
def formatPrice (value : Nat) : String :=
  if value ≥ 1000000 then
    if value % 1000000 = 0 then toString (value / 1000000) ++ "M"
    else
      let tenths := (value + 50000) / 100000
      toString (tenths / 10) ++ "." ++ toString (tenths % 10) ++ "M"
  else if value ≥ 1000 then toString ((value + 500) / 1000) ++ "k"
  else toString value

/-- formatPriceRange: JS truthiness turns an absent or zero bound into
null before the four-way range format. -/
def formatPriceRange (min max : Option Nat) : String :=
  match jsOrNullNat min, jsOrNullNat max with
  | some a, some b => "£" ++ formatPrice a ++ " - £" ++ formatPrice b
  | some a, none => "£" ++ formatPrice a ++ "+"
  | none, some b => "Up to £" ++ formatPrice b
  | none, none => "Any price"

/-- The event_data object sendPendingSearchEvent hands to
StratosTracker.trackEvent for the search event. -/
structure SearchEventData where
  location : String
  postcode : String
  min_price : Option Nat
  max_price : Option Nat
  price_range : String
  bedrooms : Option String
  bathrooms : Option String
  property_type : Option String
  listing_type : String
  filters : List (String × String)
  filters_count : Nat
  source_page : String
  source_component : String
  search_timestamp : Nat
  tracking_delay_ms : Nat
deriving DecidableEq

/-- The search event data derived from a stored record at send time. -/
def buildSearchEventData (d : SearchTrackingData) (now : Nat) : SearchEventData :=
  { location := jsOrStr d.location (jsOrStr d.postcode "")
    , postcode := jsOrStr d.postcode ""
    , min_price := jsOrNullNat d.min_price
    , max_price := jsOrNullNat d.max_price
    , price_range := formatPriceRange d.min_price d.max_price
    , bedrooms := jsOrNullStr d.bedrooms
    , bathrooms := jsOrNullStr d.bathrooms
    , property_type := jsOrNullStr d.property_type
    , listing_type := d.listing_type
    , filters := d.filters
    , filters_count := d.filters_count
    , source_page := d.source_page
    , source_component := d.source_component
    , search_timestamp := d.timestamp
    , tracking_delay_ms := now - d.timestamp }

/-- StratosTracker.trackEvent as used by the search module: builds and
sends one event when tracking is allowed, silently does nothing
otherwise. Only the search payload is modelled here. -/
def trackEventSearch (canTrack : Bool) (d : SearchEventData) :
    List (String × SearchEventData) :=
  if canTrack then [("search", d)] else []

/-- Result of sendPendingSearchEvent: the resolved boolean, the events
handed to trackEvent, and the pending slot afterwards. -/
structure SearchSendResult where
  returned : Bool
  sent : List (String × SearchEventData)
  pending : Option SearchTrackingData
deriving DecidableEq

/-- sendPendingSearchEvent: false when no pending record; otherwise the
record is deleted immediately, rejected as stale when strictly older
than 30 seconds (false, nothing sent), and otherwise forwarded through
window.StratosTracker.trackEvent when the tracker is present (true)
or dropped with false when it is not. -/
def sendPendingSearchEvent (now : Nat) (trackerAvailable canTrack : Bool)
    (pending : Option SearchTrackingData) : SearchSendResult :=
  match pending with
  | none => ⟨false, [], none⟩
  | some d =>
    if now - d.timestamp > 30000 then ⟨false, [], none⟩
    else if trackerAvailable then
      ⟨true, trackEventSearch canTrack (buildSearchEventData d now), none⟩
    else ⟨false, [], none⟩

/-! ## Favourites (tracking/modules/favourites.ts and the facade) -/

structure ToggleFavouriteResult where
  is_favourited : Bool
  count : Nat
deriving DecidableEq

/-- Outcome of the toggle-favourite HTTP round trip: the fetch or the
body parsing throws, or a response arrives with its ok flag and the
body fields (count possibly absent, defaulted with JS or-semantics). -/
inductive FetchOutcome where
  | throws
  | response (ok : Bool) (is_favourited : Bool) (count : Option Nat)
deriving DecidableEq

/-- Module toggleFavourite: the sentinel on a thrown error and on a
non-2xx response, the body fields on success. -/
def toggleFavourite (o : FetchOutcome) : ToggleFavouriteResult :=
  match o with
  | .throws => ⟨false, 0⟩
  | .response ok fav cnt =>
    if !ok then ⟨false, 0⟩ else ⟨fav, cnt.getD 0⟩

/-- StratosTracker.toggleFavourite: the canTrack guard returns the
sentinel without any round trip; otherwise the module result. -/
def facadeToggleFavourite (canTrack : Bool) (o : FetchOutcome) :
    ToggleFavouriteResult :=
  if !canTrack then ⟨false, 0⟩ else toggleFavourite o

/-! ## Helper lemmas -/

/-- Reading the session right after saving it yields the saved record,
with or without consent (the code mirrors every save into the in-memory
fallback). -/
theorem getStoredSession_saveSession (sess : SessionData) (s : SessionState) :
    getStoredSession (saveSession sess s) = some sess := by
  unfold getStoredSession saveSession
  cases s.consent <;> simp

/-- A getSessionId call on a stored, unexpired session takes the
update-activity path: it returns the existing session id and saves the
record with bumped activity time and incremented page_views. -/
theorem getSessionId_update (s : SessionState) (sess : SessionData)
    (t : Nat) (sg vg : String)
    (hs : getStoredSession s = some sess)
    (hle : t - sess.last_activity_at ≤ SESSION_TIMEOUT_MS) :
    getSessionId t sg vg s =
      (sess.session_id,
       saveSession { sess with last_activity_at := t, page_views := sess.page_views + 1 } s) := by
  have hexp : isSessionExpired t sess = false := by
    unfold isSessionExpired
    simp only [decide_eq_false_iff_not, not_lt]
    exact hle
  unfold getSessionId
  rw [hs]
  dsimp only
  rw [if_neg (by simp [hexp])]
  rfl

/-- A getSessionId call with no valid session (absent or expired) takes
the create path: it returns the freshly generated session id and saves
a new record with page_views 0 and both timestamps set to now. -/
theorem getSessionId_create (s : SessionState) (now : Nat) (sidGen vidGen : String)
    (h : noValidSession now s = true) :
    getSessionId now sidGen vidGen s =
      (sidGen,
       saveSession ⟨sidGen, (getVisitorId vidGen s).1, now, now, 0⟩
         (getVisitorId vidGen s).2) := by
  unfold noValidSession at h
  unfold getSessionId
  cases hs : getStoredSession s with
  | none => rfl
  | some sess =>
    rw [hs] at h
    dsimp only at h ⊢
    rw [if_pos h]
    rfl

/-! ## Theorems for the claims -/

/-- Claim C1 (code_bug evidence). The claim states that every public
tracking method of StratosTracker is a hard no-op when analytics
consent is absent: no payload built, no network call. The code violates
this: StratosTracker.trackPropertyDuration guards only on
config.trackingEnabled and the non-zero start time, never on the
consent flag, so with tracking enabled, consent absent (second Bool
argument false), a start time of 1000 ms and a call at 5000 ms it hands
a property_view beacon - a network call - to the transport. -/
theorem c1_consent_gate_violated :
    facadeTrackPropertyDuration true false 1000 "https://example.test/p" "prop-1" 5000 =
      [⟨"property_view", "prop-1", 4, "https://example.test/p"⟩] ∧
    facadeTrackPropertyDuration true false 1000 "https://example.test/p" "prop-1" 5000 ≠ [] := by
  decide

/-- Claim C2 (counterexample). The claim states that a creating
getSessionId call leaves the stored page_views at 1 and that after an
expiry gap the second call resets page_views to 1. At a concrete state
holding an expired session (last activity 0, call at 1800001 ms, 30
minutes is 1800000 ms) the call does return a fresh session id, but the
stored page_views is 0, not 1. -/
theorem c2_counterexample_page_views_zero :
    (getSessionId 1800001 "new-session" "gen"
        ⟨true, some ⟨"old-session", "vis", 0, 0, 5⟩, none, some "vis", none⟩).1 ≠ "old-session" ∧
    (getStoredSession (getSessionId 1800001 "new-session" "gen"
        ⟨true, some ⟨"old-session", "vis", 0, 0, 5⟩, none, some "vis", none⟩).2).map
      SessionData.page_views = some 0 ∧
    (getStoredSession (getSessionId 1800001 "new-session" "gen"
        ⟨true, some ⟨"old-session", "vis", 0, 0, 5⟩, none, some "vis", none⟩).2).map
      SessionData.page_views ≠ some 1 := by
  decide

/-- Claim C2 (amended). When getSessionId is called and no valid session
exists (absent, or expired past 30 minutes), it creates and stores a new
SessionRecord whose page_views is 0 - creation performs no
activity-update in the same call; in particular, after a gap of more
than 30 minutes the second call returns the freshly generated session id
(different from the old one whenever the fresh UUID differs) and resets
the stored page_views to 0. -/
theorem c2_amended_create_resets_page_views_to_zero
    (s : SessionState) (now : Nat) (sidGen vidGen : String)
    (h : noValidSession now s = true) :
    (getSessionId now sidGen vidGen s).1 = sidGen ∧
    getStoredSession (getSessionId now sidGen vidGen s).2 =
      some ⟨sidGen, (getVisitorId vidGen s).1, now, now, 0⟩ ∧
    (∀ sess, getStoredSession s = some sess → sidGen ≠ sess.session_id →
      (getSessionId now sidGen vidGen s).1 ≠ sess.session_id) := by
  rw [getSessionId_create s now sidGen vidGen h]
  refine ⟨rfl, getStoredSession_saveSession .., ?_⟩
  intro sess _ hne
  exact hne

/-- Claim C2 amended, witness: an expired session (last activity 0, call
at 1800001 ms) is replaced by a fresh one with page_views 0, and the
returned id is the fresh one. -/
theorem c2_amended_witness :
    noValidSession 1800001
      ⟨true, some ⟨"old-session", "vis", 0, 0, 5⟩, none, some "vis", none⟩ = true ∧
    ((getSessionId 1800001 "new-session" "gen"
        ⟨true, some ⟨"old-session", "vis", 0, 0, 5⟩, none, some "vis", none⟩).1 = "new-session" ∧
     getStoredSession (getSessionId 1800001 "new-session" "gen"
        ⟨true, some ⟨"old-session", "vis", 0, 0, 5⟩, none, some "vis", none⟩).2 =
       some ⟨"new-session",
         (getVisitorId "gen"
           ⟨true, some ⟨"old-session", "vis", 0, 0, 5⟩, none, some "vis", none⟩).1,
         1800001, 1800001, 0⟩ ∧
     (∀ sess, getStoredSession
         ⟨true, some ⟨"old-session", "vis", 0, 0, 5⟩, none, some "vis", none⟩ = some sess →
         "new-session" ≠ sess.session_id →
         (getSessionId 1800001 "new-session" "gen"
           ⟨true, some ⟨"old-session", "vis", 0, 0, 5⟩, none, some "vis", none⟩).1 ≠
           sess.session_id)) :=
  ⟨by decide,
   c2_amended_create_resets_page_views_to_zero _ 1800001 "new-session" "gen" (by decide)⟩

/-- Claim C3 (counterexample). The claim states that the scroll sequence
10, 30, 60, 40, 100 fires milestones 25, 50 and 100 and never fires 75.
In the code, Array.prototype.find returns the FIRST milestone not yet
crossed, so the jump from max 60 to 100 fires 75 (and 100 is never
fired): the fired sequence is 25, 50, 75. -/
theorem c3_counterexample_fires_75 :
    75 ∈ scrollRun 0 [10, 30, 60, 40, 100] ∧
    scrollRun 0 [10, 30, 60, 40, 100] ≠ [25, 50, 100] := by
  decide

/-- Claim C3 (amended). Simulating the scroll-percentage sequence 10,
30, 60, 40, 100 fires exactly three milestone events with values 25, 50
and 75: on a jump past several milestones the lowest uncrossed one
fires, so 100 is skipped here, and nothing re-fires on the regression
to 40. -/
theorem c3_amended_scroll_run :
    scrollRun 0 [10, 30, 60, 40, 100] = [25, 50, 75] := by
  decide

/-- Claim C4. For an existing non-expired session with page_views V, a
sequence of N getSessionId calls each within 30 minutes of the previous
activity returns the same session id every time and leaves the stored
session with page_views V + N (so page_views is non-decreasing within a
session lifetime). -/
theorem c4_page_views_add_n_same_session
    (calls : List (Nat × String × String)) (s : SessionState) (sess : SessionData)
    (hs : getStoredSession s = some sess)
    (hw : withinWindow sess.last_activity_at (calls.map Prod.fst) = true) :
    (getSessionIdN calls s).1 = calls.map (fun _ => sess.session_id) ∧
    (getStoredSession (getSessionIdN calls s).2).map SessionData.page_views =
      some (sess.page_views + calls.length) ∧
    (getStoredSession (getSessionIdN calls s).2).map SessionData.session_id =
      some sess.session_id := by
  induction calls generalizing s sess with
  | nil =>
    simp [getSessionIdN, hs]
  | cons c rest ih =>
    obtain ⟨t, sg, vg⟩ := c
    simp only [List.map_cons, withinWindow, Bool.and_eq_true, decide_eq_true_eq] at hw
    obtain ⟨hle, hw2⟩ := hw
    have hstep := getSessionId_update s sess t sg vg hs hle
    have hs2 : getStoredSession
        (saveSession { sess with last_activity_at := t, page_views := sess.page_views + 1 } s) =
        some { sess with last_activity_at := t, page_views := sess.page_views + 1 } :=
      getStoredSession_saveSession ..
    have hrec := ih _ _ hs2 hw2
    simp only [getSessionIdN, hstep]
    refine ⟨by simp [hrec.1], ?_, by simp [hrec.2.2]⟩
    have hpv := hrec.2.1
    simp only [List.length_cons]
    rw [hpv]
    congr 1
    show sess.page_views + 1 + rest.length = sess.page_views + (rest.length + 1)
    omega

/-- Claim C4, witness: starting from a stored session with page_views 5,
two calls at 1000 ms and 2000 ms both return the stored id and leave
page_views at 7. -/
theorem c4_witness :
    (getStoredSession ⟨true, some ⟨"sid", "vis", 0, 0, 5⟩, none, some "vis", none⟩ =
       some ⟨"sid", "vis", 0, 0, 5⟩) ∧
    ((getSessionIdN [(1000, "a", "x"), (2000, "b", "y")]
        ⟨true, some ⟨"sid", "vis", 0, 0, 5⟩, none, some "vis", none⟩).1 =
      [(1000, "a", "x"), (2000, "b", "y")].map (fun _ => "sid") ∧
     (getStoredSession (getSessionIdN [(1000, "a", "x"), (2000, "b", "y")]
        ⟨true, some ⟨"sid", "vis", 0, 0, 5⟩, none, some "vis", none⟩).2).map
        SessionData.page_views = some (5 + 2) ∧
     (getStoredSession (getSessionIdN [(1000, "a", "x"), (2000, "b", "y")]
        ⟨true, some ⟨"sid", "vis", 0, 0, 5⟩, none, some "vis", none⟩).2).map
        SessionData.session_id = some "sid") :=
  ⟨by decide,
   c4_page_views_add_n_same_session [(1000, "a", "x"), (2000, "b", "y")]
     ⟨true, some ⟨"sid", "vis", 0, 0, 5⟩, none, some "vis", none⟩
     ⟨"sid", "vis", 0, 0, 5⟩ (by decide) (by decide)⟩

/-- Claim C5. With the tracker present and allowed to track, storing a
search record and immediately replaying it sends exactly one search
event derived from the stored record with tracking_delay_ms 0 and
resolves true; the record is deleted on the first read, so a second
immediate call sends nothing and resolves false. -/
theorem c5_store_and_forward_round_trip
    (X : SearchTrackingInput) (now : Nat) (pagePath : String)
    (pend0 : Option SearchTrackingData) :
    sendPendingSearchEvent now true true (storeSearchForTracking now pagePath X pend0) =
      ⟨true, [("search", buildSearchEventData (mkSearchRecord now pagePath X) now)], none⟩ ∧
    (buildSearchEventData (mkSearchRecord now pagePath X) now).tracking_delay_ms = 0 ∧
    sendPendingSearchEvent now true true
        (sendPendingSearchEvent now true true
          (storeSearchForTracking now pagePath X pend0)).pending =
      ⟨false, [], none⟩ := by
  simp [sendPendingSearchEvent, storeSearchForTracking, mkSearchRecord,
    buildSearchEventData, trackEventSearch]

/-- Claim C6. A pending search record older than 30 seconds (stored at
t, replayed at t + 31000 ms) is consumed without sending anything: the
call resolves false, emits no event, and leaves no pending record -
staleness is handled as absence, not as an error. -/
theorem c6_stale_record_rejected
    (X : SearchTrackingInput) (t : Nat) (pagePath : String)
    (trackerAvailable canTrack : Bool) (pend0 : Option SearchTrackingData) :
    sendPendingSearchEvent (t + 31000) trackerAvailable canTrack
        (storeSearchForTracking t pagePath X pend0) =
      ⟨false, [], none⟩ := by
  simp [sendPendingSearchEvent, storeSearchForTracking, mkSearchRecord]

/-- Claim C7. Property duration tracking applies the 3-second floor: an
elapsed time of 2 seconds sends no event, an elapsed time of 4 seconds
sends exactly one property_view event whose data carries
view_duration_seconds 4. -/
theorem c7_duration_floor (pageUrl pid : String) (start : Nat) (h : start ≠ 0) :
    trackPropertyDuration pageUrl pid start (start + 2000) = [] ∧
    trackPropertyDuration pageUrl pid start (start + 4000) =
      [⟨"property_view", pid, 4, pageUrl⟩] := by
  unfold trackPropertyDuration
  simp [h, Nat.add_sub_cancel_left]

/-- Claim C7, witness at start time 1000 ms. -/
theorem c7_witness :
    (1000 : Nat) ≠ 0 ∧
    (trackPropertyDuration "https://example.test/p" "prop-1" 1000 (1000 + 2000) = [] ∧
     trackPropertyDuration "https://example.test/p" "prop-1" 1000 (1000 + 4000) =
       [⟨"property_view", "prop-1", 4, "https://example.test/p"⟩]) :=
  ⟨by decide, c7_duration_floor "https://example.test/p" "prop-1" 1000 (by decide)⟩

/-- Claim C8. The consent store reads are total over every read outcome
(thrown storage access, absent record, unparseable record): in each of
those cases getConsentStatus returns none rather than throwing, and both
convenience predicates return false, so absence is treated as no consent
for all categories. -/
theorem c8_consent_reads_default_safe (r : ConsentRead)
    (h : r = .throws ∨ r = .absent ∨ r = .corrupt) :
    getConsentStatus r = none ∧
    hasAnalyticsConsent r = false ∧
    hasMarketingConsent r = false := by
  rcases h with h | h | h <;> subst h <;> exact ⟨rfl, rfl, rfl⟩

/-- Claim C8, witness at the corrupt-record outcome. -/
theorem c8_witness :
    (ConsentRead.corrupt = ConsentRead.throws ∨ ConsentRead.corrupt = ConsentRead.absent ∨
       ConsentRead.corrupt = ConsentRead.corrupt) ∧
    (getConsentStatus .corrupt = none ∧
     hasAnalyticsConsent .corrupt = false ∧
     hasMarketingConsent .corrupt = false) :=
  ⟨by decide, c8_consent_reads_default_safe .corrupt (by decide)⟩

/-- Claim C9. If a temporary in-memory visitor id was generated while
analytics consent was absent (fresh state: no consent, no temporary id,
no persisted id), then after consent is granted within the same page
lifetime the next getVisitorId call returns that same temporary id and
persists it, instead of generating a fresh UUID: the anonymous identity
is promoted to the persistent one. -/
theorem c9_temp_visitor_id_promoted (s0 : SessionState) (g1 g2 : String)
    (hc : s0.consent = false) (ht : s0.tempVisitorId = none)
    (hv : s0.storedVisitor = none) :
    (getVisitorId g1 s0).1 = g1 ∧
    (getVisitorId g2 { (getVisitorId g1 s0).2 with consent := true }).1 = g1 ∧
    ((getVisitorId g2 { (getVisitorId g1 s0).2 with consent := true }).2).storedVisitor =
      some g1 := by
  have h1 : getVisitorId g1 s0 = (g1, { s0 with tempVisitorId := some g1 }) := by
    unfold getVisitorId
    rw [hc, ht]
    simp
  refine ⟨by rw [h1], ?_, ?_⟩ <;>
    rw [h1] <;>
    unfold getVisitorId <;>
    simp [hv]

/-- Claim C9, witness: from the fresh no-consent state, the id generated
before the consent flip is the one returned and persisted after it. -/
theorem c9_witness :
    ((⟨false, none, none, none, none⟩ : SessionState).consent = false) ∧
    ((getVisitorId "temp-id" (⟨false, none, none, none, none⟩ : SessionState)).1 = "temp-id" ∧
     (getVisitorId "fresh-id"
        { (getVisitorId "temp-id" (⟨false, none, none, none, none⟩ : SessionState)).2 with
            consent := true }).1 = "temp-id" ∧
     ((getVisitorId "fresh-id"
        { (getVisitorId "temp-id" (⟨false, none, none, none, none⟩ : SessionState)).2 with
            consent := true }).2).storedVisitor = some "temp-id") :=
  ⟨rfl, c9_temp_visitor_id_promoted ⟨false, none, none, none, none⟩ "temp-id" "fresh-id"
    rfl rfl rfl⟩

/-- Claim C10. The facade toggleFavourite is total over every modelled
outcome (it never rejects: the guard, the thrown round trip and the
non-2xx response are all caught) and returns the sentinel
is_favourited false, count 0 in each failure case - which is exactly the
value a genuinely successful round trip reporting not-favourited with
zero favourites returns, so the two are indistinguishable at the public
interface. -/
theorem c10_toggle_favourite_sentinel (canTrack : Bool) (o : FetchOutcome)
    (fav : Bool) (cnt : Option Nat) :
    facadeToggleFavourite false o = ⟨false, 0⟩ ∧
    facadeToggleFavourite canTrack .throws = ⟨false, 0⟩ ∧
    facadeToggleFavourite canTrack (.response false fav cnt) = ⟨false, 0⟩ ∧
    facadeToggleFavourite true (.response true false (some 0)) = ⟨false, 0⟩ := by
  cases canTrack <;> simp [facadeToggleFavourite, toggleFavourite]

end Stratos
